import Mathlib

/-!
Verification of the `onCallGenkit` Azure Functions adapter for Genkit flows
(`genkitx-azure-openai`): a shallow embedding of the request/response adapter,
its CORS header builder, request-body decoder, context-provider combinators
and the buffered and streaming (SSE) handlers, together with theorems that
settle the specification claims against the code.
-/

set_option maxRecDepth 4000

namespace GenkitAzure

/-! ## JSON values

JavaScript values produced by `JSON.parse` and consumed by `JSON.stringify`.
Objects are field lists in insertion order; as in a JavaScript object built
by repeated assignment, a later binding of the same key overrides an earlier
one, which is captured by the last-wins lookup below. -/

inductive Json where
| null : Json
| bool (b : Bool) : Json
| num (n : Int) : Json
| str (s : String) : Json
| arr (elems : List Json) : Json
| obj (fields : List (String × Json)) : Json

/-- Last-wins lookup in a string-keyed record, mirroring JavaScript object
semantics where a later assignment to a key overrides an earlier one. -/
def recGet {α : Type} : List (String × α) → String → Option α
| [], _ => none
| (k, v) :: rest, key =>
    match recGet rest key with
    | some r => some r
    | none => if k == key then some v else none

/-- JSON string escaping as performed by `JSON.stringify` for the characters
that occur in this development (quote, backslash, newline, tab and
carriage return). -/
def escapeChar (c : Char) : String :=
  if c = '"' then "\\\""
  else if c = '\\' then "\\\\"
  else if c = '\n' then "\\n"
  else if c = '\t' then "\\t"
  else if c = '\r' then "\\r"
  else String.singleton c

def escapeStr (s : String) : String :=
  String.join (s.data.map escapeChar)

mutual

/-- Rendering as by `JSON.stringify` without spacing: objects render their fields in
insertion order. -/
def Json.encode : Json → String
| .null => "null"
| .bool true => "true"
| .bool false => "false"
| .num n => toString n
| .str s => "\"" ++ escapeStr s ++ "\""
| .arr elems => "[" ++ Json.encodeList elems ++ "]"
| .obj fields => "\x7b" ++ Json.encodeFields fields ++ "\x7d"
termination_by structural j => j

def Json.encodeList : List Json → String
| [] => ""
| [x] => Json.encode x
| x :: y :: rest => Json.encode x ++ "," ++ Json.encodeList (y :: rest)
termination_by structural l => l

def Json.encodeFields : List (String × Json) → String
| [] => ""
| [(k, v)] => "\"" ++ escapeStr k ++ "\":" ++ Json.encode v
| (k, v) :: f :: rest =>
    "\"" ++ escapeStr k ++ "\":" ++ Json.encode v ++ "," ++ Json.encodeFields (f :: rest)
termination_by structural l => l

end

/-! ## Error taxonomy

`UserFacingError` from genkit carries a status name and a message. The genkit
helpers `getCallableJSON` and `getHttpStatus` live in `genkit/context`, outside
this repository; they are modelled from the spec (sections 3, 4.4, 7, 8). -/

inductive ErrKind where
| INVALID_ARGUMENT : ErrKind
| UNAUTHENTICATED : ErrKind
| PERMISSION_DENIED : ErrKind
| INTERNAL : ErrKind
deriving Repr, DecidableEq

structure UFError where
  kind : ErrKind
  message : String
  details : Option Json := none

def ErrKind.statusName : ErrKind → String
| .INVALID_ARGUMENT => "INVALID_ARGUMENT"
| .UNAUTHENTICATED => "UNAUTHENTICATED"
| .PERMISSION_DENIED => "PERMISSION_DENIED"
| .INTERNAL => "INTERNAL"

/-- Modelled from the spec: `getHttpStatus` from `genkit/context` (not under
src/). Maps the failure kind to the HTTP status: Unauthenticated to 401,
PermissionDenied to 403, InvalidArgument to 400, unrecognized to 500
(spec sections 7 and 8). -/
def getHttpStatus (e : UFError) : Nat :=
  match e.kind with
  | .INVALID_ARGUMENT => 400
  | .UNAUTHENTICATED => 401
  | .PERMISSION_DENIED => 403
  | .INTERNAL => 500

/-- Modelled from the spec: `getCallableJSON` from `genkit/context` (not under
src/). Produces the callable-protocol failure envelope
`error: (status, message, details?)` (spec sections 3 and 8). -/
def getCallableJSON (e : UFError) : Json :=
  match e.details with
  | some d =>
      .obj [("error", .obj [("status", .str e.kind.statusName),
                            ("message", .str e.message),
                            ("details", d)])]
  | none =>
      .obj [("error", .obj [("status", .str e.kind.statusName),
                            ("message", .str e.message)])]

/-! ## CORS policy and header builder (`buildCorsHeaders`) -/

/-- The field `CorsOptions.origin`: a single string or a list of strings. -/
inductive OriginCfg where
| str (s : String) : OriginCfg
| list (l : List String) : OriginCfg
deriving Repr, DecidableEq

/-- The `CorsOptions` interface. Every field is optional, as in the source;
`none` stands for the field being absent (`undefined`). -/
structure CorsOptions where
  origin : Option OriginCfg := none
  methods : Option (List String) := none
  allowedHeaders : Option (List String) := none
  exposedHeaders : Option (List String) := none
  credentials : Option Bool := none
  maxAge : Option Nat := none
deriving Repr, DecidableEq

/-- The `cors` configuration field: `CorsOptions | boolean | undefined`.
`disabled` is `false`; `enabled` covers both `true` and `undefined`
(the source treats them identically, substituting empty options). -/
inductive CorsSetting where
| disabled : CorsSetting
| enabled : CorsSetting
| policy (p : CorsOptions) : CorsSetting
deriving Repr, DecidableEq

/-- JavaScript truthiness of a `string | undefined` value: `undefined` and
the empty string are falsy. -/
def jsTruthyStr : Option String → Bool
| none => false
| some s => s ≠ ""

/-- Function `buildCorsHeaders(corsOptions, requestOrigin)`: builds the CORS response
header record. Header insertion order follows the source; keys are distinct. -/
def buildCorsHeaders (cors : CorsSetting) (requestOrigin : Option String) :
    List (String × String) :=
  match cors with
  | .disabled => []
  | c =>
    let opts : CorsOptions := match c with
      | .policy p => p
      | _ => {}
    let originHeader : List (String × String) :=
      match opts.origin.getD (.str "*") with
      | .list l =>
          match requestOrigin with
          | some ro =>
              if ro ≠ "" ∧ l.contains ro then [("Access-Control-Allow-Origin", ro)]
              else []
          | none => []
      | .str s => [("Access-Control-Allow-Origin", s)]
    let methods := (opts.methods.getD ["POST", "OPTIONS"])
    let allowedHeaders := (opts.allowedHeaders.getD ["Content-Type", "Authorization"])
    let exposedHeader : List (String × String) :=
      match opts.exposedHeaders with
      | some l => if l.length > 0 then [("Access-Control-Expose-Headers", String.intercalate ", " l)] else []
      | none => []
    let credentialsHeader : List (String × String) :=
      if opts.credentials = some true then [("Access-Control-Allow-Credentials", "true")] else []
    let maxAge := opts.maxAge.getD 86400
    [("Content-Type", "application/json")] ++ originHeader ++
      [("Access-Control-Allow-Methods", String.intercalate ", " methods),
       ("Access-Control-Allow-Headers", String.intercalate ", " allowedHeaders)] ++
      exposedHeader ++ credentialsHeader ++
      [("Access-Control-Max-Age", toString maxAge)]

/-! ## HTTP request model

The HTTP request as seen by the handler. `headers` is the raw header list
(case preserved); the Azure `request.headers.get` accessor is
case-insensitive. `bodyText` is the result of `await request.text()`:
`none` models the call throwing, `some s` the body text (absent body reads
as the empty string). `queryParams` stands for the search parameters of
`new URL(request.url)` - URL parsing belongs to the JavaScript runtime, so
its result is carried as a field. -/

structure HttpRequest where
  method : String
  url : String
  headers : List (String × String)
  queryParams : List (String × String) := []
  params : List (String × String) := []
  bodyText : Option String := some ""

/-- ASCII lower-casing of a character (header names are ASCII tokens, so
this matches `toLowerCase()` on them). -/
def lowerChar (c : Char) : Char :=
  if 'A' ≤ c ∧ c ≤ 'Z' then Char.ofNat (c.toNat + 32) else c

/-- Lower-casing `s.toLowerCase()` on ASCII strings. -/
def strToLower (s : String) : String := ⟨s.data.map lowerChar⟩

/-- Case-insensitive header access, as provided by the Fetch `Headers.get`. -/
def headersGet (headers : List (String × String)) (name : String) : Option String :=
  recGet (headers.map (fun p => (strToLower p.1, p.2))) (strToLower name)

/-- Function `getRequestOrigin`: `request.headers.get("origin") || undefined`
(an empty-string origin collapses to `undefined`). -/
def getRequestOrigin (request : HttpRequest) : Option String :=
  match headersGet request.headers "origin" with
  | some s => if s = "" then none else some s
  | none => none

/-- Function `normalizeHeaders`: lower-cases every header name (`RequestData` headers). -/
def normalizeHeaders (request : HttpRequest) : List (String × String) :=
  request.headers.map (fun p => (strToLower p.1, p.2))

/-- Genkit `RequestData`: method, lower-cased headers, decoded input. -/
structure RequestData where
  method : String
  headers : List (String × String)
  input : Json

/-- Function `toRequestData`: packages a request and its decoded input for a
context provider. -/
def toRequestData (request : HttpRequest) (input : Json) : RequestData :=
  { method := request.method, headers := normalizeHeaders request, input := input }

/-! ## Request body decoder (`parseRequestBody`)

`JSON.parse` belongs to the JavaScript runtime; the decoder is parameterized
by the parse oracle `jsonParse : String -> Option Json` (`none` models a
parse exception). -/

/-- The guard `parsed && typeof parsed === "object" && "data" in parsed`:
`null` is falsy, arrays are objects but never own a key `"data"` that came
from JSON text, so only objects with a `"data"` field pass. -/
def hasDataKey : Json → Bool
| .obj fields => fields.any (fun p => p.1 == "data")
| _ => false

/-- Callable-protocol unwrap: an object owning a `"data"` key yields that
key's value (last binding wins, as for a parsed JavaScript object); every
other value is returned unchanged. For an object parsed from JSON text,
`recGet fields "data"` succeeds exactly when `"data" in parsed` holds. -/
def unwrapData : Json → Json
| .obj fields =>
    match recGet fields "data" with
    | some v => v
    | none => .obj fields
| j => j

/-- Function `parseRequestBody(request)`: empty or unreadable body decodes to `{}`;
a body parsing to an object with a `"data"` key unwraps the callable
envelope; any other parsed value is returned as-is; a parse failure raises
`INVALID_ARGUMENT` with message "Invalid JSON in request body". -/
def parseRequestBody (jsonParse : String → Option Json)
    (bodyText : Option String) : Except UFError Json :=
  match bodyText with
  | none => .ok (.obj [])
  | some s =>
      if s = "" then .ok (.obj [])
      else
        match jsonParse s with
        | some parsed => .ok (unwrapData parsed)
        | none => .error { kind := .INVALID_ARGUMENT, message := "Invalid JSON in request body" }

/-! ## Action contexts and context providers

An `ActionContext` is a JavaScript object of named fields; spreads
(`...a, ...b`) append field lists, with the last-wins `recGet` lookup
giving override semantics. A `ContextProvider` is an (awaited) function
from `RequestData` to a context or a raised `UserFacingError`. -/

abbrev Ctx : Type := List (String × Json)

abbrev ContextProvider : Type := RequestData → Except UFError Ctx

/-- JavaScript falsiness test used by the provider helpers on a
`string | undefined` header value (`!apiKey`, `!value`). -/
def jsFalsy (v : Option String) : Bool :=
  match v with
  | none => true
  | some s => s = ""

/-- The `string | validator` second argument of `requireApiKey`. -/
inductive ApiKeyCheck where
| expected (v : String) : ApiKeyCheck
| validator (f : String → Except UFError Unit) : ApiKeyCheck

/-- Provider `requireApiKey(headerName, expectedValueOrValidator)`: reads the
lower-cased header from `RequestData`; a falsy value (`!apiKey`: absent or
empty) raises `UNAUTHENTICATED`; a literal mismatch raises
`PERMISSION_DENIED`; a validator is invoked (its failure propagates);
success yields the context `auth.apiKey`. -/
def requireApiKey (headerName : String) (check : ApiKeyCheck) : ContextProvider :=
  fun request =>
    let apiKey := recGet request.headers (strToLower headerName)
    if jsFalsy apiKey then
      .error { kind := .UNAUTHENTICATED,
               message := "Missing required header: " ++ headerName }
    else
      let key := apiKey.getD ""
      match check with
      | .expected v =>
          if key ≠ v then
            .error { kind := .PERMISSION_DENIED, message := "Invalid API key" }
          else .ok [("auth", .obj [("apiKey", .str key)])]
      | .validator f =>
          match f key with
          | .error e => .error e
          | .ok _ => .ok [("auth", .obj [("apiKey", .str key)])]

/-- Provider `requireHeader(headerName, expectedValue?)`: a falsy header value raises
`UNAUTHENTICATED`; a configured expected value that does not match raises
`PERMISSION_DENIED`; otherwise the empty context. -/
def requireHeader (headerName : String) (expectedValue : Option String) : ContextProvider :=
  fun request =>
    let value := recGet request.headers (strToLower headerName)
    if jsFalsy value then
      .error { kind := .UNAUTHENTICATED,
               message := "Missing required header: " ++ headerName }
    else
      match expectedValue with
      | some expected =>
          if value.getD "" ≠ expected then
            .error { kind := .PERMISSION_DENIED,
                     message := "Invalid value for header: " ++ headerName }
          else .ok []
      | none => .ok []

/-- Provider `allowAll()`: always the empty context. -/
def allowAll : ContextProvider := fun _ => .ok []

/-- The loop body of `anyOf`: tries each provider in order, remembering the
last error. -/
def anyOfGo (request : RequestData) : List ContextProvider → Option UFError → Except UFError Ctx
| [], none => .error { kind := .UNAUTHENTICATED, message := "Unauthorized" }
| [], some e => .error e
| p :: rest, _ =>
    match p request with
    | .ok context => .ok context
    | .error e => anyOfGo request rest (some e)

/-- Combinator `anyOf(...providers)`: first success short-circuits; if all fail, the
last error propagates; with no providers, a generic `UNAUTHENTICATED`
"Unauthorized" error is raised. -/
def anyOf (providers : List ContextProvider) : ContextProvider :=
  fun request => anyOfGo request providers none

/-- Combinator `allOf(...providers)`: all must succeed; contexts merge left to right
(later providers override on key collision via the spread). -/
def allOf (providers : List ContextProvider) : ContextProvider :=
  fun request =>
    providers.foldlM (fun merged p => (p request).map (fun c => merged ++ c)) ([] : Ctx)

/-! ## Adapter configuration, platform context and flow collaborator -/

/-- Structure `AzureFunctionsOptions`: the adapter configuration, constructed once and
closed over by the handler. `onError` is the awaited error-override
callback, returning a transport status code and a message. -/
structure AzureFunctionsOptions where
  authLevel : Option String := none
  httpMethods : Option (List String) := none
  route : Option String := none
  cors : CorsSetting := .enabled
  contextProvider : Option ContextProvider := none
  onError : Option (UFError → Nat × String) := none
  debug : Bool := false
  streaming : Bool := false

/-- The per-invocation Azure Functions context object. -/
structure InvocationContext where
  functionName : String
  invocationId : String

/-- A string record rendered as a JSON object value. -/
def strMapJson (m : List (String × String)) : Json :=
  .obj (m.map (fun p => (p.1, .str p.2)))

/-- Function `buildAzureFunctionsContext`: the platform-derived context fields. -/
def buildAzureFunctionsContext (request : HttpRequest)
    (azureContext : InvocationContext) : Ctx :=
  [("azureFunctions",
    .obj [("request",
           .obj [("url", .str request.url),
                 ("headers", strMapJson (normalizeHeaders request)),
                 ("query", strMapJson request.queryParams),
                 ("params", strMapJson request.params)]),
          ("context",
           .obj [("functionName", .str azureContext.functionName),
                 ("invocationId", .str azureContext.invocationId)])])]

/-- Function `resolveActionContext`: platform-derived fields, merged (spread) with
the configured context provider result when there is one - the provider
fields come second and therefore override on key collision. Provider
failures propagate unchanged. -/
def resolveActionContext (opts : AzureFunctionsOptions) (request : HttpRequest)
    (azureContext : InvocationContext) (input : Json) : Except UFError Ctx :=
  let azureFunctionsContext := buildAzureFunctionsContext request azureContext
  match opts.contextProvider with
  | some provider =>
      match provider (toRequestData request input) with
      | .ok providerContext => .ok (azureFunctionsContext ++ providerContext)
      | .error e => .error e
  | none => .ok azureFunctionsContext

/-- The outcome of the flow's streaming execution inside the `ReadableStream`
start callback: the chunks delivered by the async iterator, then either the
awaited final output or the failure that interrupted iteration or the
awaited output. -/
inductive StreamOutcome where
| success (chunks : List Json) (result : Json) : StreamOutcome
| failure (chunks : List Json) (error : UFError) : StreamOutcome

/-- The external flow collaborator: `flow.run` yields a final output (its
`.result`), `flow.stream` yields chunks plus a deferred output, and either
may fail. -/
structure FlowModel where
  run : Json → Ctx → Except UFError Json
  streamRun : Json → Ctx → StreamOutcome

/-! ## Responses and the error normalizer -/

/-- The field `HttpResponseInit.body`: absent, a JSON body, or a streamed body (the
full byte sequence the `ReadableStream` enqueues before closing, decoded as
text). -/
inductive ResponseBody where
| none : ResponseBody
| jsonBody (j : Json) : ResponseBody
| streamBody (s : String) : ResponseBody

/-- The `HttpResponseInit` value returned by a handler. Headers use
JavaScript object semantics (`recGet` lookup, last binding wins). -/
structure HttpResponseInit where
  status : Nat
  headers : List (String × String)
  body : ResponseBody

/-- Function `buildErrorResponse(error, corsHeaders)`: with an `onError` override the
transport status is the override's `statusCode` and the body is
`error.status = "INTERNAL"` with the override's message; otherwise the
status comes from `getHttpStatus` and the body from `getCallableJSON`. -/
def buildErrorResponse (opts : AzureFunctionsOptions) (e : UFError)
    (corsHeaders : List (String × String)) : HttpResponseInit :=
  match opts.onError with
  | some f =>
      let customError := f e
      { status := customError.1,
        headers := corsHeaders,
        body := .jsonBody (.obj [("error",
          .obj [("status", .str "INTERNAL"),
                ("message", .str customError.2)])]) }
  | none =>
      { status := getHttpStatus e,
        headers := corsHeaders,
        body := .jsonBody (getCallableJSON e) }

/-! ## The two handlers -/

/-- One SSE chunk record: `data: ("message": chunk)` followed by a blank
line. -/
def sseMessageRecord (chunk : Json) : String :=
  "data: " ++ Json.encode (.obj [("message", chunk)]) ++ "\n\n"

/-- The trailing SSE record: `data: ("result": output)`. -/
def sseResultRecord (result : Json) : String :=
  "data: " ++ Json.encode (.obj [("result", result)]) ++ "\n\n"

/-- The in-band SSE error record: `data:` followed by the
`getCallableJSON` payload. The `onError` override is not consulted here. -/
def sseErrorRecord (e : UFError) : String :=
  "data: " ++ Json.encode (getCallableJSON e) ++ "\n\n"

/-- Everything the `ReadableStream` start callback enqueues before closing
the controller: one record per chunk in order, then either the result
record or, if the flow failed mid-stream, the single in-band error
record. -/
def sseStreamBody (outcome : StreamOutcome) : String :=
  match outcome with
  | .success chunks result =>
      String.join (chunks.map sseMessageRecord) ++ sseResultRecord result
  | .failure chunks e =>
      String.join (chunks.map sseMessageRecord) ++ sseErrorRecord e

/-- Substring test on character lists (JavaScript `String.prototype.includes`). -/
def charsHaveSub : List Char → List Char → Bool
| _, [] => true
| [], _ :: _ => false
| a :: as, b :: bs =>
    (a == b && List.isPrefixOf bs as) || charsHaveSub as (b :: bs)

/-- Substring test `haystack.includes(needle)`. -/
def strIncludes (haystack needle : String) : Bool :=
  charsHaveSub haystack.data needle.data

/-- Function `standardHandler(request, azureContext)`: the buffered-mode handler. -/
def standardHandler (jsonParse : String → Option Json)
    (opts : AzureFunctionsOptions) (flow : FlowModel)
    (request : HttpRequest) (azureContext : InvocationContext) : HttpResponseInit :=
  let requestOrigin := getRequestOrigin request
  let corsHeaders := buildCorsHeaders opts.cors requestOrigin
  if request.method == "OPTIONS" then
    { status := 204, headers := corsHeaders, body := .none }
  else
    match parseRequestBody jsonParse request.bodyText with
    | .error e => buildErrorResponse opts e corsHeaders
    | .ok input =>
        match resolveActionContext opts request azureContext input with
        | .error e => buildErrorResponse opts e corsHeaders
        | .ok actionContext =>
            match flow.run input actionContext with
            | .ok result =>
                { status := 200,
                  headers := corsHeaders,
                  body := .jsonBody (.obj [("result", result)]) }
            | .error e => buildErrorResponse opts e corsHeaders

/-- Function `streamingHandler(request, azureContext)`: the streaming-capable
handler. When the Accept header contains `text/event-stream` the response
is an SSE stream whose in-stream failures are reported in-band via
`getCallableJSON`; otherwise it falls back to the buffered behavior. -/
def streamingHandler (jsonParse : String → Option Json)
    (opts : AzureFunctionsOptions) (flow : FlowModel)
    (request : HttpRequest) (azureContext : InvocationContext) : HttpResponseInit :=
  let requestOrigin := getRequestOrigin request
  let corsHeaders := buildCorsHeaders opts.cors requestOrigin
  if request.method == "OPTIONS" then
    { status := 204, headers := corsHeaders, body := .none }
  else
    match parseRequestBody jsonParse request.bodyText with
    | .error e => buildErrorResponse opts e corsHeaders
    | .ok input =>
        match resolveActionContext opts request azureContext input with
        | .error e => buildErrorResponse opts e corsHeaders
        | .ok actionContext =>
            let acceptHeader := (headersGet request.headers "accept").getD ""
            if strIncludes acceptHeader "text/event-stream" then
              { status := 200,
                headers := corsHeaders ++
                  [("Content-Type", "text/event-stream"),
                   ("Cache-Control", "no-cache"),
                   ("Connection", "keep-alive")],
                body := .streamBody (sseStreamBody (flow.streamRun input actionContext)) }
            else
              match flow.run input actionContext with
              | .ok result =>
                  { status := 200,
                    headers := corsHeaders,
                    body := .jsonBody (.obj [("result", result)]) }
              | .error e => buildErrorResponse opts e corsHeaders

/-- The handler selected by `onCallGenkit`: `streamingHandler` when the
`streaming` option is set, `standardHandler` otherwise. -/
def selectedHandler (jsonParse : String → Option Json)
    (opts : AzureFunctionsOptions) (flow : FlowModel) :
    HttpRequest → InvocationContext → HttpResponseInit :=
  if opts.streaming then streamingHandler jsonParse opts flow
  else standardHandler jsonParse opts flow

/-! ## Helper lemmas on record lookup -/

theorem recGet_append {α : Type} (a b : List (String × α)) (k : String) :
    recGet (a ++ b) k =
      match recGet b k with
      | some v => some v
      | none => recGet a k := by
  induction a with
  | nil =>
      simp only [List.nil_append]
      cases recGet b k <;> rfl
  | cons hd tl ih =>
      obtain ⟨k0, v0⟩ := hd
      show (match recGet (tl ++ b) k with
            | some r => some r
            | none => if k0 == k then some v0 else none) = _
      rw [ih]
      cases hb : recGet b k <;> cases ht : recGet tl k <;> simp [recGet, ht]

theorem recGet_eq_none {α : Type} (l : List (String × α)) (k : String)
    (h : l.any (fun p => p.1 == k) = false) : recGet l k = none := by
  induction l with
  | nil => rfl
  | cons hd tl ih =>
      obtain ⟨k0, v0⟩ := hd
      simp only [List.any_cons, Bool.or_eq_false_iff] at h
      simp [recGet, ih h.2, h.1]

theorem unwrapData_eq_self (j : Json) (h : hasDataKey j = false) :
    unwrapData j = j := by
  cases j <;> simp only [unwrapData]
  next fields =>
    rw [recGet_eq_none fields "data" h]

theorem getRequestOrigin_ne_empty (request : HttpRequest) (o : String)
    (h : getRequestOrigin request = some o) : o ≠ "" := by
  unfold getRequestOrigin at h
  split at h
  · split at h
    · exact absurd h (by simp)
    · next hs => cases h; exact hs
  · exact absurd h (by simp)

theorem recGet_exposed_none (x : Option (List String)) :
    recGet (match x with
            | some l =>
                if 0 < l.length then
                  [("Access-Control-Expose-Headers", String.intercalate ", " l)]
                else []
            | none => []) "Access-Control-Allow-Origin" = none := by
  rcases x with _ | l₀
  · rfl
  · by_cases h : 0 < l₀.length <;> simp [recGet, h]

theorem recGet_cred_none (c : Option Bool) :
    recGet (if c = some true then [("Access-Control-Allow-Credentials", "true")] else [])
      "Access-Control-Allow-Origin" = none := by
  by_cases h : c = some true <;> simp [recGet, h]

/-! ## Claim theorems -/

/-- C3: for every request body, if the body is empty or absent the decoder
returns an empty object; if the body parses to a JSON object containing the
key "data", the decoder returns the value of that key; for every other
successfully parsed JSON value, the decoder returns the parsed value
itself. -/
theorem parseRequestBody_decode (jsonParse : String → Option Json) :
    (parseRequestBody jsonParse none = .ok (.obj []) ∧
     parseRequestBody jsonParse (some "") = .ok (.obj [])) ∧
    (∀ (s : String) (fields : List (String × Json)) (v : Json),
       s ≠ "" → jsonParse s = some (.obj fields) → recGet fields "data" = some v →
       parseRequestBody jsonParse (some s) = .ok v) ∧
    (∀ (s : String) (j : Json),
       s ≠ "" → jsonParse s = some j → hasDataKey j = false →
       parseRequestBody jsonParse (some s) = .ok j) := by
  refine ⟨⟨rfl, rfl⟩, ?_, ?_⟩
  · intro s fields v hs hj hv
    simp [parseRequestBody, hs, hj, unwrapData, hv]
  · intro s j hs hj hd
    simp [parseRequestBody, hs, hj, unwrapData_eq_self j hd]

theorem parseRequestBody_decode_witness :
    parseRequestBody (fun _ => some (.obj [("data", .num 7)]))
        (some "\x7b\"data\":7\x7d") = .ok (.num 7) ∧
    parseRequestBody (fun _ => some (.num 3)) (some "3") = .ok (.num 3) ∧
    parseRequestBody (fun _ => none) none = .ok (.obj []) := by
  refine ⟨?_, ?_, ?_⟩
  · exact (parseRequestBody_decode _).2.1 _ [("data", .num 7)] (.num 7)
      (by decide) rfl rfl
  · exact (parseRequestBody_decode _).2.2 _ (.num 3) (by decide) rfl rfl
  · exact (parseRequestBody_decode _).1.1

/-- C4: for every non-empty request body that is not valid JSON, the decoder
fails with an `INVALID_ARGUMENT` error carrying exactly the message
"Invalid JSON in request body", and it fails with no other error on any
input. -/
theorem parseRequestBody_invalid_json (jsonParse : String → Option Json) :
    (∀ (s : String), s ≠ "" → jsonParse s = none →
       parseRequestBody jsonParse (some s)
         = .error { kind := .INVALID_ARGUMENT,
                    message := "Invalid JSON in request body" }) ∧
    (∀ (bodyText : Option String) (e : UFError),
       parseRequestBody jsonParse bodyText = .error e →
       e = { kind := .INVALID_ARGUMENT,
             message := "Invalid JSON in request body" }) := by
  constructor
  · intro s hs hj
    simp [parseRequestBody, hs, hj]
  · intro bodyText e h
    cases bodyText with
    | none => simp [parseRequestBody] at h
    | some s =>
        by_cases hs : s = ""
        · simp [parseRequestBody, hs] at h
        · cases hj : jsonParse s with
          | some parsed => simp [parseRequestBody, hs, hj] at h
          | none =>
              simp [parseRequestBody, hs, hj] at h
              exact h.symm

theorem parseRequestBody_invalid_json_witness :
    parseRequestBody (fun _ => none) (some "not json")
      = .error { kind := .INVALID_ARGUMENT,
                 message := "Invalid JSON in request body" } ∧
    ({ kind := .INVALID_ARGUMENT, message := "Invalid JSON in request body" } : UFError)
      = { kind := .INVALID_ARGUMENT, message := "Invalid JSON in request body" } := by
  have h1 := (parseRequestBody_invalid_json (fun _ => none)).1 "not json" (by decide) rfl
  exact ⟨h1, (parseRequestBody_invalid_json (fun _ => none)).2 (some "not json") _ h1⟩

/-- C5: for an origin allow-list, the CORS header map carries
`Access-Control-Allow-Origin` equal to the request origin exactly when the
request origin is present and a member of the list, and no such header
otherwise; for a single-string origin (including "*"), that string is
always emitted verbatim. -/
theorem buildCorsHeaders_origin_spec :
    (∀ (p : CorsOptions) (l : List String) (request : HttpRequest),
       p.origin = some (.list l) →
       recGet (buildCorsHeaders (.policy p) (getRequestOrigin request))
           "Access-Control-Allow-Origin"
         = match getRequestOrigin request with
           | some o => if l.contains o then some o else none
           | none => none) ∧
    (∀ (p : CorsOptions) (s : String) (requestOrigin : Option String),
       p.origin = some (.str s) →
       recGet (buildCorsHeaders (.policy p) requestOrigin)
           "Access-Control-Allow-Origin" = some s) := by
  constructor
  · intro p l request hp
    simp only [buildCorsHeaders, hp, recGet_append]
    cases hro : getRequestOrigin request with
    | none => simp [recGet, recGet_exposed_none, recGet_cred_none]
    | some o =>
        have hne := getRequestOrigin_ne_empty request o hro
        by_cases hm : o ∈ l <;>
          simp [recGet, hne, hm, recGet_exposed_none, recGet_cred_none]
  · intro p s requestOrigin hp
    simp only [buildCorsHeaders, hp, recGet_append]
    simp [recGet, recGet_exposed_none, recGet_cred_none]

theorem buildCorsHeaders_origin_witness :
    recGet (buildCorsHeaders (.policy { origin := some (.list ["https://a.com"]) })
        (getRequestOrigin { method := "POST", url := "http://f",
                            headers := [("Origin", "https://b.com")] }))
        "Access-Control-Allow-Origin" = none ∧
    recGet (buildCorsHeaders (.policy { origin := some (.list ["https://a.com"]) })
        (getRequestOrigin { method := "POST", url := "http://f",
                            headers := [("Origin", "https://a.com")] }))
        "Access-Control-Allow-Origin" = some "https://a.com" ∧
    recGet (buildCorsHeaders (.policy { origin := some (.str "*") }) (some "https://b.com"))
        "Access-Control-Allow-Origin" = some "*" := by
  refine ⟨?_, ?_, ?_⟩
  · exact (buildCorsHeaders_origin_spec.1 _ ["https://a.com"] _ rfl).trans (by decide)
  · exact (buildCorsHeaders_origin_spec.1 _ ["https://a.com"] _ rfl).trans (by decide)
  · exact buildCorsHeaders_origin_spec.2 _ "*" _ rfl

/-- C6: an OPTIONS request yields, from both the buffered and the streaming
handler and for every configuration, status 204 with exactly the computed
CORS headers and no body; the result does not depend on the request body,
the configured context provider, or the flow. -/
theorem options_preflight (jsonParse : String → Option Json)
    (opts : AzureFunctionsOptions) (flow : FlowModel)
    (request : HttpRequest) (azureContext : InvocationContext)
    (h : request.method = "OPTIONS") :
    standardHandler jsonParse opts flow request azureContext
      = { status := 204,
          headers := buildCorsHeaders opts.cors (getRequestOrigin request),
          body := .none } ∧
    streamingHandler jsonParse opts flow request azureContext
      = { status := 204,
          headers := buildCorsHeaders opts.cors (getRequestOrigin request),
          body := .none } := by
  constructor <;> simp [standardHandler, streamingHandler, h]

theorem options_preflight_witness :
    standardHandler (fun _ => none)
        { contextProvider := some (requireApiKey "X-API-Key" (.expected "secret")) }
        { run := fun _ _ => .error { kind := .INTERNAL, message := "unused" },
          streamRun := fun _ _ => .failure [] { kind := .INTERNAL, message := "unused" } }
        { method := "OPTIONS", url := "http://f", headers := [] }
        { functionName := "jokeFlow", invocationId := "inv1" }
      = { status := 204,
          headers := buildCorsHeaders .enabled none,
          body := .none } ∧
    streamingHandler (fun _ => none)
        { streaming := true,
          contextProvider := some (requireApiKey "X-API-Key" (.expected "secret")) }
        { run := fun _ _ => .error { kind := .INTERNAL, message := "unused" },
          streamRun := fun _ _ => .failure [] { kind := .INTERNAL, message := "unused" } }
        { method := "OPTIONS", url := "http://f", headers := [] }
        { functionName := "jokeFlow", invocationId := "inv1" }
      = { status := 204,
          headers := buildCorsHeaders .enabled none,
          body := .none } :=
  ⟨(options_preflight _ _ _ _ _ rfl).1, (options_preflight _ _ _ _ _ rfl).2⟩

/-- C7 counterexample: with the header present but bearing the empty string,
`requireApiKey("X-API-Key", "secret")` fails with `UNAUTHENTICATED` (missing
header), not with `PERMISSION_DENIED` as the claim's mismatch clause would
require for a present-but-different value. -/
theorem requireApiKey_empty_value_cex :
    requireApiKey "X-API-Key" (.expected "secret")
        { method := "POST", headers := [("x-api-key", "")], input := .obj [] }
      = .error { kind := .UNAUTHENTICATED,
                 message := "Missing required header: X-API-Key" } ∧
    ErrKind.UNAUTHENTICATED ≠ ErrKind.PERMISSION_DENIED :=
  ⟨rfl, by decide⟩

/-- C7 (amended): `requireApiKey(h, v)` fails with `UNAUTHENTICATED` and
message "Missing required header: h" when the header is absent or carries
the empty string; fails with `PERMISSION_DENIED` when the header carries a
non-empty value different from `v`; and resolves to the context
`auth.apiKey = value` when the (non-empty) value equals `v`. -/
theorem requireApiKey_spec (headerName v : String) (rd : RequestData) :
    (jsFalsy (recGet rd.headers (strToLower headerName)) = true →
       requireApiKey headerName (.expected v) rd
         = .error { kind := .UNAUTHENTICATED,
                    message := "Missing required header: " ++ headerName }) ∧
    (∀ val, recGet rd.headers (strToLower headerName) = some val →
       val ≠ "" → val ≠ v →
       requireApiKey headerName (.expected v) rd
         = .error { kind := .PERMISSION_DENIED, message := "Invalid API key" }) ∧
    (recGet rd.headers (strToLower headerName) = some v → v ≠ "" →
       requireApiKey headerName (.expected v) rd
         = .ok [("auth", .obj [("apiKey", .str v)])]) := by
  refine ⟨?_, ?_, ?_⟩
  · intro h
    simp [requireApiKey, h]
  · intro val hval hne hnev
    simp [requireApiKey, hval, jsFalsy, hne, hnev]
  · intro hval hne
    simp [requireApiKey, hval, jsFalsy, hne]

theorem requireApiKey_spec_witness :
    requireApiKey "X-API-Key" (.expected "secret")
        { method := "POST", headers := [("x-api-key", "secret")], input := .obj [] }
      = .ok [("auth", .obj [("apiKey", .str "secret")])] ∧
    requireApiKey "X-API-Key" (.expected "secret")
        { method := "POST", headers := [("x-api-key", "wrong")], input := .obj [] }
      = .error { kind := .PERMISSION_DENIED, message := "Invalid API key" } ∧
    requireApiKey "X-API-Key" (.expected "secret")
        { method := "POST", headers := [], input := .obj [] }
      = .error { kind := .UNAUTHENTICATED,
                 message := "Missing required header: X-API-Key" } := by
  refine ⟨?_, ?_, ?_⟩
  · exact (requireApiKey_spec "X-API-Key" "secret" _).2.2 (by decide) (by decide)
  · exact (requireApiKey_spec "X-API-Key" "secret" _).2.1 "wrong"
      (by decide) (by decide) (by decide)
  · exact (requireApiKey_spec "X-API-Key" "secret" _).1 (by decide)

/-- C10: a header present with the empty string as its value is treated
exactly like an absent header by `requireApiKey` (for every check) and by
`requireHeader` (for every expected value): both fail with `UNAUTHENTICATED`
and the "Missing required header" message, never with a `PERMISSION_DENIED`
value mismatch. -/
theorem empty_header_like_missing (headerName : String) (check : ApiKeyCheck)
    (expectedValue : Option String) (rd : RequestData)
    (h : recGet rd.headers (strToLower headerName) = some "") :
    requireApiKey headerName check rd
      = .error { kind := .UNAUTHENTICATED,
                 message := "Missing required header: " ++ headerName } ∧
    requireHeader headerName expectedValue rd
      = .error { kind := .UNAUTHENTICATED,
                 message := "Missing required header: " ++ headerName } := by
  constructor
  · simp [requireApiKey, h, jsFalsy]
  · simp [requireHeader, h, jsFalsy]

theorem empty_header_like_missing_witness :
    requireApiKey "X-API-Key" (.expected "secret")
        { method := "POST", headers := [("x-api-key", "")], input := .obj [] }
      = .error { kind := .UNAUTHENTICATED,
                 message := "Missing required header: X-API-Key" } ∧
    requireHeader "X-API-Key" (some "secret")
        { method := "POST", headers := [("x-api-key", "")], input := .obj [] }
      = .error { kind := .UNAUTHENTICATED,
                 message := "Missing required header: X-API-Key" } :=
  empty_header_like_missing "X-API-Key" (.expected "secret") (some "secret") _ (by decide)

theorem anyOfGo_skip_failures (rd : RequestData) (pre rest : List ContextProvider)
    (acc : Option UFError) (h : ∀ q ∈ pre, ∃ e, q rd = .error e) :
    ∃ acc2, anyOfGo rd (pre ++ rest) acc = anyOfGo rd rest acc2 := by
  induction pre generalizing acc with
  | nil => exact ⟨acc, rfl⟩
  | cons q tl ih =>
      obtain ⟨e, he⟩ := h q (by simp)
      obtain ⟨acc2, hacc⟩ := ih (some e) (fun q2 hq2 => h q2 (by simp [hq2]))
      exact ⟨acc2, by simpa [anyOfGo, he] using hacc⟩

/-- C8: `anyOf` runs the providers sequentially; the context of the first
provider that succeeds is returned as-is (the providers after it play no
part in the result), and when every provider fails, the failure of the last
provider attempted propagates. -/
theorem anyOf_spec :
    (∀ (pre post : List ContextProvider) (p : ContextProvider)
        (rd : RequestData) (c : Ctx),
       (∀ q ∈ pre, ∃ e, q rd = .error e) → p rd = .ok c →
       anyOf (pre ++ p :: post) rd = .ok c) ∧
    (∀ (ps : List ContextProvider) (plast : ContextProvider)
        (rd : RequestData) (e : UFError),
       (∀ q ∈ ps, ∃ e2, q rd = .error e2) → plast rd = .error e →
       anyOf (ps ++ [plast]) rd = .error e) := by
  constructor
  · intro pre post p rd c hpre hp
    obtain ⟨acc2, hacc⟩ := anyOfGo_skip_failures rd pre (p :: post) none hpre
    show anyOfGo rd (pre ++ p :: post) none = .ok c
    rw [hacc]
    simp [anyOfGo, hp]
  · intro ps plast rd e hps hlast
    obtain ⟨acc2, hacc⟩ := anyOfGo_skip_failures rd ps [plast] none hps
    show anyOfGo rd (ps ++ [plast]) none = .error e
    rw [hacc]
    simp [anyOfGo, hlast]

theorem anyOf_spec_witness :
    anyOf [fun _ => .error { kind := .UNAUTHENTICATED, message := "p1 failed" },
           fun _ => .ok [("auth", .str "p2")]]
        { method := "POST", headers := [], input := .obj [] }
      = .ok [("auth", .str "p2")] ∧
    anyOf [fun _ => .error { kind := .UNAUTHENTICATED, message := "p1 failed" },
           fun _ => .error { kind := .PERMISSION_DENIED, message := "p2 failed" }]
        { method := "POST", headers := [], input := .obj [] }
      = .error { kind := .PERMISSION_DENIED, message := "p2 failed" } := by
  constructor
  · exact anyOf_spec.1
      [fun _ => .error { kind := .UNAUTHENTICATED, message := "p1 failed" }] []
      (fun _ => .ok [("auth", .str "p2")]) _ _
      (by intro q hq; simp at hq; subst hq; exact ⟨_, rfl⟩) rfl
  · exact anyOf_spec.2
      [fun _ => .error { kind := .UNAUTHENTICATED, message := "p1 failed" }]
      (fun _ => .error { kind := .PERMISSION_DENIED, message := "p2 failed" }) _ _
      (by intro q hq; simp at hq; subst hq; exact ⟨_, rfl⟩) rfl

/-- C9: with a configured context provider that succeeds, the resolved
context is the platform-derived fields followed by the provider fields, and
on every key the provider field wins over the platform field; with no
provider configured, the resolved context is the platform-derived fields
only. -/
theorem resolveActionContext_spec (opts : AzureFunctionsOptions)
    (request : HttpRequest) (azureContext : InvocationContext) (input : Json) :
    (∀ provider pctx,
       opts.contextProvider = some provider →
       provider (toRequestData request input) = .ok pctx →
       resolveActionContext opts request azureContext input
         = .ok (buildAzureFunctionsContext request azureContext ++ pctx) ∧
       ∀ k, recGet (buildAzureFunctionsContext request azureContext ++ pctx) k
          = match recGet pctx k with
            | some v => some v
            | none => recGet (buildAzureFunctionsContext request azureContext) k) ∧
    (opts.contextProvider = none →
       resolveActionContext opts request azureContext input
         = .ok (buildAzureFunctionsContext request azureContext)) := by
  constructor
  · intro provider pctx hp hok
    exact ⟨by simp [resolveActionContext, hp, hok], fun k => by rw [recGet_append]; cases recGet pctx k <;> rfl⟩
  · intro hnone
    simp [resolveActionContext, hnone]

theorem resolveActionContext_spec_witness :
    resolveActionContext
        { contextProvider := some (fun _ => .ok [("azureFunctions", .str "provider wins")]) }
        { method := "POST", url := "http://f", headers := [] }
        { functionName := "jokeFlow", invocationId := "inv1" } (.obj [])
      = .ok (buildAzureFunctionsContext
               { method := "POST", url := "http://f", headers := [] }
               { functionName := "jokeFlow", invocationId := "inv1" }
             ++ [("azureFunctions", .str "provider wins")]) ∧
    recGet (buildAzureFunctionsContext
              { method := "POST", url := "http://f", headers := [] }
              { functionName := "jokeFlow", invocationId := "inv1" }
            ++ [("azureFunctions", .str "provider wins")]) "azureFunctions"
      = some (.str "provider wins") ∧
    resolveActionContext {}
        { method := "POST", url := "http://f", headers := [] }
        { functionName := "jokeFlow", invocationId := "inv1" } (.obj [])
      = .ok (buildAzureFunctionsContext
               { method := "POST", url := "http://f", headers := [] }
               { functionName := "jokeFlow", invocationId := "inv1" }) := by
  have h := (resolveActionContext_spec
      { contextProvider := some (fun _ => .ok [("azureFunctions", .str "provider wins")]) }
      { method := "POST", url := "http://f", headers := [] }
      { functionName := "jokeFlow", invocationId := "inv1" } (.obj [])).1
      (fun _ => .ok [("azureFunctions", .str "provider wins")])
      [("azureFunctions", .str "provider wins")] rfl rfl
  refine ⟨h.1, (h.2 "azureFunctions").trans (by rfl), ?_⟩
  exact (resolveActionContext_spec {}
      { method := "POST", url := "http://f", headers := [] }
      { functionName := "jokeFlow", invocationId := "inv1" } (.obj [])).2 rfl

/-- C2: under a streaming-enabled configuration, for a request whose Accept
header contains "text/event-stream" that reaches flow execution (it is not
an OPTIONS preflight, its body decodes, and its context resolves), if the
streaming execution yields chunks and then a final output, the response has
status 200 and its body is exactly one `data:` record per chunk, in order,
followed by one trailing `data:` record with the result, after which the
stream is closed. -/
theorem streamingHandler_sse_success (jsonParse : String → Option Json)
    (opts : AzureFunctionsOptions) (flow : FlowModel)
    (request : HttpRequest) (azureContext : InvocationContext)
    (input : Json) (ctx : Ctx) (chunks : List Json) (out : Json)
    (hstreaming : opts.streaming = true)
    (hmethod : request.method ≠ "OPTIONS")
    (hparse : parseRequestBody jsonParse request.bodyText = .ok input)
    (hctx : resolveActionContext opts request azureContext input = .ok ctx)
    (haccept : strIncludes ((headersGet request.headers "accept").getD "")
        "text/event-stream" = true)
    (hflow : flow.streamRun input ctx = .success chunks out) :
    selectedHandler jsonParse opts flow request azureContext
      = { status := 200,
          headers := buildCorsHeaders opts.cors (getRequestOrigin request) ++
            [("Content-Type", "text/event-stream"),
             ("Cache-Control", "no-cache"),
             ("Connection", "keep-alive")],
          body := .streamBody
            (String.join (chunks.map (fun c =>
                "data: " ++ Json.encode (.obj [("message", c)]) ++ "\n\n")) ++
             ("data: " ++ Json.encode (.obj [("result", out)]) ++ "\n\n")) } := by
  simp [selectedHandler, hstreaming, streamingHandler, hmethod, hparse, hctx,
        haccept, hflow, sseStreamBody, sseMessageRecord, sseResultRecord]
  rfl

theorem streamingHandler_sse_success_witness :
    selectedHandler (fun _ => some (.obj [("subject", .str "cats")]))
        { streaming := true }
        { run := fun _ _ => .ok (.obj [("joke", .str "a b")]),
          streamRun := fun _ _ =>
            .success [.str "a", .str "b"] (.obj [("joke", .str "a b")]) }
        { method := "POST", url := "http://f",
          headers := [("accept", "text/event-stream")],
          bodyText := some "\x7b\"subject\":\"cats\"\x7d" }
        { functionName := "jokeStreamingFlow", invocationId := "inv1" }
      = { status := 200,
          headers := [("Content-Type", "application/json"),
                      ("Access-Control-Allow-Origin", "*"),
                      ("Access-Control-Allow-Methods", "POST, OPTIONS"),
                      ("Access-Control-Allow-Headers", "Content-Type, Authorization"),
                      ("Access-Control-Max-Age", "86400"),
                      ("Content-Type", "text/event-stream"),
                      ("Cache-Control", "no-cache"),
                      ("Connection", "keep-alive")],
          body := .streamBody
            ("data: \x7b\"message\":\"a\"\x7d\n\ndata: \x7b\"message\":\"b\"\x7d\n\ndata: \x7b\"result\":\x7b\"joke\":\"a b\"\x7d\x7d\n\n") } := by
  have h := streamingHandler_sse_success
      (fun _ => some (.obj [("subject", .str "cats")]))
      { streaming := true }
      { run := fun _ _ => .ok (.obj [("joke", .str "a b")]),
        streamRun := fun _ _ =>
          .success [.str "a", .str "b"] (.obj [("joke", .str "a b")]) }
      { method := "POST", url := "http://f",
        headers := [("accept", "text/event-stream")],
        bodyText := some "\x7b\"subject\":\"cats\"\x7d" }
      { functionName := "jokeStreamingFlow", invocationId := "inv1" }
      (.obj [("subject", .str "cats")]) _ [.str "a", .str "b"]
      (.obj [("joke", .str "a b")])
      rfl (by decide) rfl rfl (by decide) rfl
  exact h.trans (by rfl)

/-- C1 (amended): every failure is normalized exactly once, in both
response modes. Failures raised before flow execution (body decoding,
context resolution, from either handler) and flow-execution failures on the
buffered paths - the buffered handler, and the streaming handler's buffered
fallback when the Accept header does not contain `text/event-stream` -
produce the `buildErrorResponse` normalization, where the configured
`onError` override applies; a failure raised after the SSE stream has been
opened is emitted as one in-band `data:` record framing the default
`getCallableJSON` payload - the `onError` override is not applied
in-stream - and the stream is then closed. -/
theorem error_normalized_once (jsonParse : String → Option Json)
    (opts : AzureFunctionsOptions) (flow : FlowModel)
    (request : HttpRequest) (azureContext : InvocationContext)
    (hmethod : request.method ≠ "OPTIONS") :
    (∀ e, parseRequestBody jsonParse request.bodyText = .error e →
       standardHandler jsonParse opts flow request azureContext
         = buildErrorResponse opts e
             (buildCorsHeaders opts.cors (getRequestOrigin request)) ∧
       streamingHandler jsonParse opts flow request azureContext
         = buildErrorResponse opts e
             (buildCorsHeaders opts.cors (getRequestOrigin request))) ∧
    (∀ input e, parseRequestBody jsonParse request.bodyText = .ok input →
       resolveActionContext opts request azureContext input = .error e →
       standardHandler jsonParse opts flow request azureContext
         = buildErrorResponse opts e
             (buildCorsHeaders opts.cors (getRequestOrigin request)) ∧
       streamingHandler jsonParse opts flow request azureContext
         = buildErrorResponse opts e
             (buildCorsHeaders opts.cors (getRequestOrigin request))) ∧
    (∀ input ctx e, parseRequestBody jsonParse request.bodyText = .ok input →
       resolveActionContext opts request azureContext input = .ok ctx →
       flow.run input ctx = .error e →
       standardHandler jsonParse opts flow request azureContext
         = buildErrorResponse opts e
             (buildCorsHeaders opts.cors (getRequestOrigin request)) ∧
       (strIncludes ((headersGet request.headers "accept").getD "")
            "text/event-stream" = false →
          streamingHandler jsonParse opts flow request azureContext
            = buildErrorResponse opts e
                (buildCorsHeaders opts.cors (getRequestOrigin request)))) ∧
    (∀ input ctx chunks e,
       parseRequestBody jsonParse request.bodyText = .ok input →
       resolveActionContext opts request azureContext input = .ok ctx →
       strIncludes ((headersGet request.headers "accept").getD "")
           "text/event-stream" = true →
       flow.streamRun input ctx = .failure chunks e →
       streamingHandler jsonParse opts flow request azureContext
         = { status := 200,
             headers := buildCorsHeaders opts.cors (getRequestOrigin request) ++
               [("Content-Type", "text/event-stream"),
                ("Cache-Control", "no-cache"),
                ("Connection", "keep-alive")],
             body := .streamBody
               (String.join (chunks.map sseMessageRecord) ++
                ("data: " ++ Json.encode (getCallableJSON e) ++ "\n\n")) }) := by
  refine ⟨?_, ?_, ?_, ?_⟩
  · intro e hparse
    constructor <;> simp [standardHandler, streamingHandler, hmethod, hparse]
  · intro input e hparse hctx
    constructor <;> simp [standardHandler, streamingHandler, hmethod, hparse, hctx]
  · intro input ctx e hparse hctx hrun
    constructor
    · simp [standardHandler, hmethod, hparse, hctx, hrun]
    · intro haccept
      simp [streamingHandler, hmethod, hparse, hctx, haccept, hrun]
  · intro input ctx chunks e hparse hctx haccept hflow
    simp [streamingHandler, hmethod, hparse, hctx, haccept, hflow,
          sseStreamBody, sseErrorRecord]

/-- C1 counterexample: with an `onError` override configured and a failure
raised after the SSE stream has been opened, the single in-band record
frames the default `getCallableJSON` payload, which differs from the
override-normalized payload (status tag "INTERNAL" with the override's
message) that the claim requires. -/
theorem streaming_error_override_cex :
    (streamingHandler (fun _ => none)
        { streaming := true,
          onError := some (fun _ => (500, "custom message")) }
        { run := fun _ _ => .error { kind := .UNAUTHENTICATED, message := "boom" },
          streamRun := fun _ _ =>
            .failure [] { kind := .UNAUTHENTICATED, message := "boom" } }
        { method := "POST", url := "http://f",
          headers := [("accept", "text/event-stream")] }
        { functionName := "jokeStreamingFlow", invocationId := "inv1" }).body
      = .streamBody
          "data: \x7b\"error\":\x7b\"status\":\"UNAUTHENTICATED\",\"message\":\"boom\"\x7d\x7d\n\n" ∧
    ("data: \x7b\"error\":\x7b\"status\":\"UNAUTHENTICATED\",\"message\":\"boom\"\x7d\x7d\n\n" : String)
      ≠ "data: " ++ Json.encode (.obj [("error",
            .obj [("status", .str "INTERNAL"),
                  ("message", .str "custom message")])]) ++ "\n\n" :=
  ⟨rfl, by decide⟩

theorem error_normalized_once_witness :
    standardHandler (fun _ => none)
        { onError := some (fun e => (500, "custom: " ++ e.message)) }
        { run := fun _ _ => .ok (.obj []),
          streamRun := fun _ _ => .success [] (.obj []) }
        { method := "POST", url := "http://f", headers := [],
          bodyText := some "bad json" }
        { functionName := "jokeFlow", invocationId := "inv1" }
      = { status := 500,
          headers := buildCorsHeaders .enabled none,
          body := .jsonBody (.obj [("error",
            .obj [("status", .str "INTERNAL"),
                  ("message", .str "custom: Invalid JSON in request body")])]) } ∧
    streamingHandler (fun _ => some (.obj []))
        { streaming := true }
        { run := fun _ _ => .error { kind := .INTERNAL, message := "boom" },
          streamRun := fun _ _ =>
            .failure [.str "a"] { kind := .INTERNAL, message := "boom" } }
        { method := "POST", url := "http://f",
          headers := [("accept", "text/event-stream")], bodyText := some "\x7b\x7d" }
        { functionName := "jokeStreamingFlow", invocationId := "inv2" }
      = { status := 200,
          headers := buildCorsHeaders .enabled none ++
            [("Content-Type", "text/event-stream"),
             ("Cache-Control", "no-cache"),
             ("Connection", "keep-alive")],
          body := .streamBody
            ("data: \x7b\"message\":\"a\"\x7d\n\ndata: \x7b\"error\":\x7b\"status\":\"INTERNAL\",\"message\":\"boom\"\x7d\x7d\n\n") } ∧
    streamingHandler (fun _ => some (.obj []))
        { streaming := true }
        { run := fun _ _ => .error { kind := .INTERNAL, message := "boom" },
          streamRun := fun _ _ =>
            .failure [] { kind := .INTERNAL, message := "boom" } }
        { method := "POST", url := "http://f",
          headers := [("accept", "application/json")], bodyText := some "\x7b\x7d" }
        { functionName := "jokeStreamingFlow", invocationId := "inv3" }
      = { status := 500,
          headers := buildCorsHeaders .enabled none,
          body := .jsonBody (.obj [("error",
            .obj [("status", .str "INTERNAL"),
                  ("message", .str "boom")])]) } := by
  refine ⟨?_, ?_, ?_⟩
  · have h := ((error_normalized_once (fun _ => none)
        { onError := some (fun e => (500, "custom: " ++ e.message)) }
        { run := fun _ _ => .ok (.obj []),
          streamRun := fun _ _ => .success [] (.obj []) }
        { method := "POST", url := "http://f", headers := [],
          bodyText := some "bad json" }
        { functionName := "jokeFlow", invocationId := "inv1" }
        (by decide)).1
        { kind := .INVALID_ARGUMENT, message := "Invalid JSON in request body" } rfl).1
    exact h.trans (by rfl)
  · have h := (error_normalized_once (fun _ => some (.obj []))
        { streaming := true }
        { run := fun _ _ => .error { kind := .INTERNAL, message := "boom" },
          streamRun := fun _ _ =>
            .failure [.str "a"] { kind := .INTERNAL, message := "boom" } }
        { method := "POST", url := "http://f",
          headers := [("accept", "text/event-stream")], bodyText := some "\x7b\x7d" }
        { functionName := "jokeStreamingFlow", invocationId := "inv2" }
        (by decide)).2.2.2 (.obj [])
        (buildAzureFunctionsContext
          { method := "POST", url := "http://f",
            headers := [("accept", "text/event-stream")], bodyText := some "\x7b\x7d" }
          { functionName := "jokeStreamingFlow", invocationId := "inv2" })
        [.str "a"] { kind := .INTERNAL, message := "boom" }
        rfl rfl (by decide) rfl
    exact h.trans (by rfl)
  · have h := (((error_normalized_once (fun _ => some (.obj []))
        { streaming := true }
        { run := fun _ _ => .error { kind := .INTERNAL, message := "boom" },
          streamRun := fun _ _ =>
            .failure [] { kind := .INTERNAL, message := "boom" } }
        { method := "POST", url := "http://f",
          headers := [("accept", "application/json")], bodyText := some "\x7b\x7d" }
        { functionName := "jokeStreamingFlow", invocationId := "inv3" }
        (by decide)).2.2.1 (.obj [])
        (buildAzureFunctionsContext
          { method := "POST", url := "http://f",
            headers := [("accept", "application/json")], bodyText := some "\x7b\x7d" }
          { functionName := "jokeStreamingFlow", invocationId := "inv3" })
        { kind := .INTERNAL, message := "boom" }
        rfl rfl rfl).2 (by decide))
    exact h.trans (by rfl)

end GenkitAzure
